import Mathlib

/-!
Shallow embedding of the carbon-sdk strategy-management utilities
(`src/unnamed/part_000`) and proofs of the specification claims about them.

The numeric substrate (`Decimal`, `tenPow`, `trimDecimal`, `parseUnits`,
`formatUnits`) lives in `utils/numerics`, which is not part of the provided
sources; it is modelled from the spec (section 4.1) below.  The `Decimal`
arbitrary-precision type is modelled by the exact rationals `ℚ`; decimal
strings are modelled by their exact rational values.  `BigNumber` base-unit
integers are modelled by `ℤ`.
-/

namespace Carbon

/-- Modelled from the spec: `tenPow(a, b)` (from `utils/numerics`, missing from
the sources) is the exact decimal scale factor `10 ^ (a - b)` used by the rate
normalizers of spec section 4.2, here written over `ℚ` as `10 ^ a / 10 ^ b`. -/
def tenPow (a b : ℕ) : ℚ := (10 : ℚ) ^ a / (10 : ℚ) ^ b

/-- Modelled from the spec: truncation of a decimal value toward zero (dropping
fractional digits of a decimal string never rounds away from zero), the
primitive behind `trimDecimal` and the truncating base-unit conversion of spec
section 4.1. -/
def ratTrunc (q : ℚ) : ℤ := if q < 0 then ⌈q⌉ else ⌊q⌋

/-- Modelled from the spec: `trimDecimal(x, decimals)` (from `utils/numerics`,
missing from the sources) truncates a decimal value to at most `decimals`
fractional digits without rounding (spec section 4.1). -/
def trimDecimal (q : ℚ) (d : ℕ) : ℚ := (ratTrunc (q * (10 : ℚ) ^ d) : ℚ) / (10 : ℚ) ^ d

/-- Modelled from the spec: `parseUnits(x, decimals)` (the `toBaseUnits`
conversion of spec section 4.1, missing from the sources): `x * 10 ^ decimals`
taken to an integer with the truncating policy of section 4.1 for deliverable
amounts. -/
def parseUnits (q : ℚ) (d : ℕ) : ℤ := ratTrunc (q * (10 : ℚ) ^ d)

/-- Modelled from the spec: `formatUnits(x, decimals)` (the `fromBaseUnits`
conversion of spec section 4.1, missing from the sources): `x / 10 ^ decimals`,
exact. -/
def formatUnits (n : ℤ) (d : ℕ) : ℚ := (n : ℚ) / (10 : ℚ) ^ d

/-- Modelled from the spec: `Decimal.sqrt` (spec section 4.1).  An exact
decimal square root does not exist, so the model uses the floor square root at
a fixed precision of ten fractional digits; every property proved below about
the solver depends only on this value being non-negative. -/
def decSqrt (q : ℚ) : ℚ :=
  (Nat.sqrt (ratTrunc (q * (10 : ℚ) ^ 20)).toNat : ℚ) / (10 : ℚ) ^ 10

/-- Error channel for the exceptions thrown by the strategy-management module.
`degenerateRange` is the "degenerate range" error named by the spec (section 7);
the provided sources contain no code path that raises it. -/
inductive StrategyError where
  | invalidPrice
  | invalidPriceOrdering
  | invalidBudget
  | degenerateRange
  deriving DecidableEq

/-- `DecodedOrder` of `common/types`: one side of a strategy in base units.
The rate strings are modelled by their exact rational values and the
`liquidity` base-unit integer string by `ℤ`. -/
structure DecodedOrder where
  liquidity : ℤ
  lowestRate : ℚ
  highestRate : ℚ
  marginalRate : ℚ
  deriving DecidableEq

/-- `DecodedStrategy` of `common/types`. -/
structure DecodedStrategy where
  token0 : String
  token1 : String
  order0 : DecodedOrder
  order1 : DecodedOrder
  deriving DecidableEq

/-- The numeric and token fields of the human-view `Strategy` record returned
by `parseStrategy`.  The `id` and `encoded` fields of the source record are
structural pass-throughs of the external codec's data and carry no arithmetic,
so they are omitted from the model. -/
structure Strategy where
  baseToken : String
  quoteToken : String
  buyPriceLow : ℚ
  buyPriceMarginal : ℚ
  buyPriceHigh : ℚ
  buyBudget : ℚ
  sellPriceLow : ℚ
  sellPriceMarginal : ℚ
  sellPriceHigh : ℚ
  sellBudget : ℚ
  deriving DecidableEq

/-- `OverlappingDistributionResult` (source lines 317-323). -/
structure OverlappingDistributionResult where
  buyPriceHigh : ℚ
  buyPriceMarginal : ℚ
  sellPriceLow : ℚ
  sellPriceMarginal : ℚ
  sellBudget : ℚ
  deriving DecidableEq

/-- The pair of orders returned by `createOrders`. -/
structure OrdersPair where
  order0 : DecodedOrder
  order1 : DecodedOrder
  deriving DecidableEq

/-- `normalizeRate` (source lines 23-31): scale a human rate by
`tenPow(amountTokenDecimals, otherTokenDecimals)`. -/
def normalizeRate (amount : ℚ) (amountTokenDecimals otherTokenDecimals : ℕ) : ℚ :=
  amount * tenPow amountTokenDecimals otherTokenDecimals

/-- `normalizeInvertedRate` (source lines 33-44): return `0` for a zero input,
otherwise scale the reciprocal by `tenPow(otherTokenDecimals,
amountTokenDecimals)`. -/
def normalizeInvertedRate (amount : ℚ) (amountTokenDecimals otherTokenDecimals : ℕ) : ℚ :=
  if amount = 0 then 0
  else 1 / amount * tenPow otherTokenDecimals amountTokenDecimals

/-- `createOrders` (source lines 221-296).  Order 0 sells the base token:
its budget is the sell budget in base-token base units and its rates are the
inverted-normalized sell prices (high to lowest, marginal to marginal, low to
highest).  Order 1 sells the quote token: its budget is the buy budget in
quote-token base units and its rates are the directly normalized buy prices. -/
def createOrders (baseTokenDecimals quoteTokenDecimals : ℕ)
    (buyPriceLow buyPriceMarginal buyPriceHigh buyBudget
     sellPriceLow sellPriceMarginal sellPriceHigh sellBudget : ℚ) : OrdersPair :=
  let liquidity0 := parseUnits sellBudget baseTokenDecimals
  let lowestRate0 := normalizeInvertedRate sellPriceHigh quoteTokenDecimals baseTokenDecimals
  let marginalRate0 := normalizeInvertedRate sellPriceMarginal quoteTokenDecimals baseTokenDecimals
  let highestRate0 := normalizeInvertedRate sellPriceLow quoteTokenDecimals baseTokenDecimals
  let liquidity1 := parseUnits buyBudget quoteTokenDecimals
  let lowestRate1 := normalizeRate buyPriceLow quoteTokenDecimals baseTokenDecimals
  let marginalRate1 := normalizeRate buyPriceMarginal quoteTokenDecimals baseTokenDecimals
  let highestRate1 := normalizeRate buyPriceHigh quoteTokenDecimals baseTokenDecimals
  { order0 := { liquidity := liquidity0, lowestRate := lowestRate0,
                highestRate := highestRate0, marginalRate := marginalRate0 },
    order1 := { liquidity := liquidity1, lowestRate := lowestRate1,
                highestRate := highestRate1, marginalRate := marginalRate1 } }

/-- `buildStrategyObject` (source lines 149-219): validate price signs, then
per-side price ordering, then budget signs, in that order, and delegate to
`createOrders`. -/
def buildStrategyObject (baseToken quoteToken : String)
    (baseDecimals quoteDecimals : ℕ)
    (buyPriceLow buyPriceMarginal buyPriceHigh buyBudget
     sellPriceLow sellPriceMarginal sellPriceHigh sellBudget : ℚ) :
    Except StrategyError DecodedStrategy :=
  if buyPriceLow < 0 ∨ buyPriceMarginal < 0 ∨ buyPriceHigh < 0 ∨
      sellPriceLow < 0 ∨ sellPriceMarginal < 0 ∨ sellPriceHigh < 0 then
    .error .invalidPrice
  else if buyPriceLow > buyPriceMarginal ∨ buyPriceLow > buyPriceHigh ∨
      buyPriceMarginal > buyPriceHigh ∨ sellPriceLow > sellPriceMarginal ∨
      sellPriceLow > sellPriceHigh ∨ sellPriceMarginal > sellPriceHigh then
    .error .invalidPriceOrdering
  else if buyBudget < 0 ∨ sellBudget < 0 then
    .error .invalidBudget
  else
    let orders := createOrders baseDecimals quoteDecimals
      buyPriceLow buyPriceMarginal buyPriceHigh buyBudget
      sellPriceLow sellPriceMarginal sellPriceHigh sellBudget
    .ok { token0 := baseToken, token1 := quoteToken,
          order0 := orders.order0, order1 := orders.order1 }

/-- `parseStrategy` (source lines 77-147).  The external decimals resolver is
modelled by passing its two results (`fetchDecimals token0` and
`fetchDecimals token1`) as the arguments `decimals0` and `decimals1`; the
external codec data (`id`, `encoded`) is a structural pass-through omitted
from the model. -/
def parseStrategy (strategy : DecodedStrategy) (decimals0 decimals1 : ℕ) : Strategy :=
  { baseToken := strategy.token0
    quoteToken := strategy.token1
    buyPriceLow := normalizeRate strategy.order1.lowestRate decimals0 decimals1
    buyPriceMarginal := normalizeRate strategy.order1.marginalRate decimals0 decimals1
    buyPriceHigh := normalizeRate strategy.order1.highestRate decimals0 decimals1
    buyBudget := formatUnits strategy.order1.liquidity decimals1
    sellPriceLow := normalizeInvertedRate strategy.order0.highestRate decimals1 decimals0
    sellPriceMarginal := normalizeInvertedRate strategy.order0.marginalRate decimals1 decimals0
    sellPriceHigh := normalizeInvertedRate strategy.order0.lowestRate decimals1 decimals0
    sellBudget := formatUnits strategy.order0.liquidity decimals0 }

/-- `PPM_RESOLUTION` (source line 298). -/
def PPM_RESOLUTION : ℕ := 1000000

/-- `addFee` (source lines 300-305): `ceil(amount * PPM / (PPM - feePPM))`. -/
def addFee (amount : ℚ) (tradingFeePPM : ℕ) : ℤ :=
  ⌈amount * (PPM_RESOLUTION : ℚ) / ((PPM_RESOLUTION : ℚ) - (tradingFeePPM : ℚ))⌉

/-- `subtractFee` (source lines 307-315): `floor(amount * (PPM - feePPM) / PPM)`. -/
def subtractFee (amount : ℚ) (tradingFeePPM : ℕ) : ℤ :=
  ⌊amount * ((PPM_RESOLUTION : ℚ) - (tradingFeePPM : ℚ)) / (PPM_RESOLUTION : ℚ)⌋

/-- The let-chain of `calculateOverlappingDistribution` (source lines 334-370)
before the output trimming.  The source local names `buyLowBudgetRatio` and
`sellHighBudgetRatio` are rendered `buyLowBudgetFrac` and
`sellHighBudgetFrac`. -/
def overlappingDistributionValues
    (buyPriceLow sellPriceHigh marketPrice spreadPercentage buyBudget : ℚ) :
    OverlappingDistributionResult :=
  let sellPriceHighDec := sellPriceHigh
  let buyPriceLowDec := buyPriceLow
  let marketPriceDec := marketPrice
  let totalPriceRange := sellPriceHighDec - buyPriceLowDec
  let spread := totalPriceRange * spreadPercentage / 100
  let buyPriceHigh := sellPriceHighDec - spread
  let sellPriceLow := buyPriceLowDec + spread
  let buyPriceRange := buyPriceHigh - buyPriceLowDec
  let sellPriceRange := sellPriceHighDec - sellPriceLow
  let buyLowRange := marketPriceDec - buyPriceLowDec - spread / 2
  let buyLowBudgetFrac := buyLowRange / buyPriceRange
  let buyOrderYint := buyBudget / buyLowBudgetFrac
  let buyPriceMarginal := buyPriceLowDec + buyPriceRange * buyLowBudgetFrac
  let geoMean := decSqrt (buyPriceLowDec * sellPriceHighDec)
  let sellOrderYint := buyOrderYint / geoMean
  let sellHighBudgetFrac := 1 - buyLowBudgetFrac
  let sellBudget := sellOrderYint * sellHighBudgetFrac
  let sellPriceMarginal := sellPriceHighDec - sellPriceRange * sellHighBudgetFrac
  { buyPriceHigh := buyPriceHigh, buyPriceMarginal := buyPriceMarginal,
    sellPriceLow := sellPriceLow, sellPriceMarginal := sellPriceMarginal,
    sellBudget := sellBudget }

/-- `calculateOverlappingDistribution` (source lines 325-385): compute the
overlapping-distribution values and trim the four prices to the quote token's
decimals and the sell budget to the base token's decimals.  The source
function contains no throw statement; the `Except` return type models the
exception channel of the source language, and every input is sent to `.ok`. -/
def calculateOverlappingDistribution (baseTokenDecimals quoteTokenDecimals : ℕ)
    (buyPriceLow sellPriceHigh marketPrice spreadPercentage buyBudget : ℚ) :
    Except StrategyError OverlappingDistributionResult :=
  let v := overlappingDistributionValues buyPriceLow sellPriceHigh
    marketPrice spreadPercentage buyBudget
  .ok {
    buyPriceHigh := trimDecimal v.buyPriceHigh quoteTokenDecimals,
    buyPriceMarginal := trimDecimal v.buyPriceMarginal quoteTokenDecimals,
    sellPriceLow := trimDecimal v.sellPriceLow quoteTokenDecimals,
    sellPriceMarginal := trimDecimal v.sellPriceMarginal quoteTokenDecimals,
    sellBudget := trimDecimal v.sellBudget baseTokenDecimals }

/-- The twelve-step reference algorithm of spec section 4.4, written from the
spec's own formulas (steps 1-12) followed by the trimming of the five outputs,
to be compared with the source function `calculateOverlappingDistribution`. -/
def specOverlappingDistribution (baseTokenDecimals quoteTokenDecimals : ℕ)
    (b s m p B : ℚ) : OverlappingDistributionResult :=
  let spread := (s - b) * p / 100
  let r := (m - b - spread / 2) / ((s - spread) - b)
  { buyPriceHigh := trimDecimal (s - spread) quoteTokenDecimals,
    buyPriceMarginal := trimDecimal (b + ((s - spread) - b) * r) quoteTokenDecimals,
    sellPriceLow := trimDecimal (b + spread) quoteTokenDecimals,
    sellPriceMarginal := trimDecimal (s - (s - (b + spread)) * (1 - r)) quoteTokenDecimals,
    sellBudget := trimDecimal (B / r / decSqrt (b * s) * (1 - r)) baseTokenDecimals }

/-- Boolean check that one decoded order satisfies
`lowestRate ≤ marginalRate ≤ highestRate`. -/
def rateOrderedB (o : DecodedOrder) : Bool :=
  decide (o.lowestRate ≤ o.marginalRate) && decide (o.marginalRate ≤ o.highestRate)

/-- Boolean check that both orders of a decoded strategy satisfy
`lowestRate ≤ marginalRate ≤ highestRate`. -/
def ordersOrderedB (s : DecodedStrategy) : Bool :=
  rateOrderedB s.order0 && rateOrderedB s.order1

/-- Boolean check of the ordering facts about a returned overlapping
distribution that survive output trimming, relative to the input
`sellPriceHigh` bound `s`. -/
def overlappingOrderedB (s : ℚ) (r : OverlappingDistributionResult) : Bool :=
  decide (r.sellPriceLow ≤ r.sellPriceMarginal) && decide (r.sellPriceMarginal ≤ s) &&
    decide (r.buyPriceMarginal ≤ r.buyPriceHigh) && decide (r.buyPriceHigh ≤ s) &&
    decide (0 ≤ r.sellBudget)

/-! Helper lemmas about the numeric substrate. -/

theorem tenPow_pos (a b : ℕ) : 0 < tenPow a b :=
  div_pos (pow_pos (by norm_num) a) (pow_pos (by norm_num) b)

theorem tenPow_ne_zero (a b : ℕ) : tenPow a b ≠ 0 := (tenPow_pos a b).ne'

theorem tenPow_mul_tenPow (a b : ℕ) : tenPow a b * tenPow b a = 1 := by
  rw [tenPow, tenPow]
  have h1 : (10 : ℚ) ^ a ≠ 0 := pow_ne_zero a (by norm_num)
  have h2 : (10 : ℚ) ^ b ≠ 0 := pow_ne_zero b (by norm_num)
  field_simp

theorem ratTrunc_intCast (n : ℤ) : ratTrunc (n : ℚ) = n := by
  unfold ratTrunc
  split <;> simp

theorem ratTrunc_nonneg {q : ℚ} (h : 0 ≤ q) : 0 ≤ ratTrunc q := by
  unfold ratTrunc
  rw [if_neg (not_lt.mpr h)]
  exact Int.floor_nonneg.mpr h

theorem ratTrunc_le {q : ℚ} (h : 0 ≤ q) : (ratTrunc q : ℚ) ≤ q := by
  unfold ratTrunc
  rw [if_neg (not_lt.mpr h)]
  exact Int.floor_le q

theorem ratTrunc_mono {q r : ℚ} (h : q ≤ r) : ratTrunc q ≤ ratTrunc r := by
  unfold ratTrunc
  split_ifs with h1 h2
  · exact Int.ceil_le_ceil h
  · exact le_trans (Int.ceil_le.mpr (by exact_mod_cast h1.le))
      (Int.floor_nonneg.mpr (not_lt.mp h2))
  · exact absurd (lt_of_le_of_lt h (by assumption)) h1
  · exact Int.floor_le_floor h

theorem trimDecimal_nonneg {q : ℚ} (d : ℕ) (h : 0 ≤ q) : 0 ≤ trimDecimal q d := by
  unfold trimDecimal
  have hp : (0 : ℚ) < (10 : ℚ) ^ d := pow_pos (by norm_num) d
  exact div_nonneg (by exact_mod_cast ratTrunc_nonneg (mul_nonneg h hp.le)) hp.le

theorem trimDecimal_le {q : ℚ} (d : ℕ) (h : 0 ≤ q) : trimDecimal q d ≤ q := by
  unfold trimDecimal
  have hp : (0 : ℚ) < (10 : ℚ) ^ d := pow_pos (by norm_num) d
  rw [div_le_iff₀ hp]
  exact ratTrunc_le (mul_nonneg h hp.le)

theorem trimDecimal_mono {q r : ℚ} (d : ℕ) (h : q ≤ r) :
    trimDecimal q d ≤ trimDecimal r d := by
  unfold trimDecimal
  have hp : (0 : ℚ) < (10 : ℚ) ^ d := pow_pos (by norm_num) d
  have hm := ratTrunc_mono (mul_le_mul_of_nonneg_right h hp.le)
  exact (div_le_div_iff_of_pos_right hp).mpr (by exact_mod_cast hm)

theorem decSqrt_nonneg (q : ℚ) : 0 ≤ decSqrt q := by
  unfold decSqrt
  positivity

/-! The claims. -/

/-- C1 (amended): `calculateOverlappingDistribution` performs no
degenerate-range validation.  On every input with `spreadPercentage = 100` or
`buyPriceLow = sellPriceHigh` it still returns a result (computed with a zero
divisor) instead of raising a `DegenerateRange` error. -/
theorem overlapping_degenerate_returns_result (bd qd : ℕ) (b s m p B : ℚ)
    (h : p = 100 ∨ b = s) :
    (calculateOverlappingDistribution bd qd b s m p B).isOk = true := rfl

/-- Witness for `overlapping_degenerate_returns_result` at
`spreadPercentage = 100`. -/
theorem overlapping_degenerate_returns_result_witness :
    ((100 : ℚ) = 100 ∨ (1 : ℚ) = 2) ∧
    (calculateOverlappingDistribution 18 6 1 2 (3 / 2) 100 1000).isOk = true :=
  ⟨Or.inl rfl, overlapping_degenerate_returns_result 18 6 1 2 (3 / 2) 100 1000 (Or.inl rfl)⟩

/-- Counterexample to C1 as stated: at the degenerate input
`buyPriceLow = sellPriceHigh = 3`, the solver returns a result and does not
fail with the `DegenerateRange` error. -/
theorem overlapping_degenerate_counterexample :
    (calculateOverlappingDistribution 18 6 3 3 2 0 5).isOk = true ∧
    calculateOverlappingDistribution 18 6 3 3 2 0 5 ≠
      .error StrategyError.degenerateRange :=
  ⟨rfl, by simp [calculateOverlappingDistribution]⟩

/-- C4: on every input (in particular every non-degenerate one),
`calculateOverlappingDistribution` returns exactly the value of the
twelve-step reference algorithm of spec section 4.4
(`specOverlappingDistribution`), with the four price outputs trimmed to the
quote token's decimals and the sell budget trimmed to the base token's
decimals. -/
theorem overlapping_matches_spec_algorithm (bd qd : ℕ) (b s m p B : ℚ)
    (h : p ≠ 100 ∨ b ≠ s) :
    calculateOverlappingDistribution bd qd b s m p B =
      .ok (specOverlappingDistribution bd qd b s m p B) := rfl

/-- Witness for `overlapping_matches_spec_algorithm` at a concrete
non-degenerate input. -/
theorem overlapping_matches_spec_algorithm_witness :
    ((0 : ℚ) ≠ 100 ∨ (1 : ℚ) ≠ 2) ∧
    calculateOverlappingDistribution 18 6 1 2 (3 / 2) 0 1 =
      .ok (specOverlappingDistribution 18 6 1 2 (3 / 2) 0 1) :=
  ⟨Or.inl (by norm_num),
    overlapping_matches_spec_algorithm 18 6 1 2 (3 / 2) 0 1 (Or.inl (by norm_num))⟩

/-- C7: `addFee` is the exact ceiling of `amount * PPM / (PPM - feePPM)` and
`subtractFee` is the exact floor of `amount * (PPM - feePPM) / PPM` (the
bracketing inequalities below characterize the two rounding directions), and
`addFee 1000 2000 = 1003`. -/
theorem addFee_subtractFee_rounding (a : ℚ) (f : ℕ) (ha : 0 ≤ a)
    (hf : f < 1000000) :
    (a * 1000000 / (1000000 - (f : ℚ)) ≤ (addFee a f : ℚ) ∧
      ((addFee a f : ℚ)) < a * 1000000 / (1000000 - (f : ℚ)) + 1) ∧
    ((subtractFee a f : ℚ) ≤ a * (1000000 - (f : ℚ)) / 1000000 ∧
      a * (1000000 - (f : ℚ)) / 1000000 - 1 < (subtractFee a f : ℚ)) ∧
    addFee 1000 2000 = 1003 := by
  have hppm : ((PPM_RESOLUTION : ℕ) : ℚ) = 1000000 := by norm_num [PPM_RESOLUTION]
  refine ⟨⟨?_, ?_⟩, ⟨?_, ?_⟩, ?_⟩
  · simpa [addFee, hppm] using Int.le_ceil (a * 1000000 / (1000000 - (f : ℚ)))
  · simpa [addFee, hppm] using Int.ceil_lt_add_one (a * 1000000 / (1000000 - (f : ℚ)))
  · simpa [subtractFee, hppm] using Int.floor_le (a * (1000000 - (f : ℚ)) / 1000000)
  · simpa [subtractFee, hppm] using Int.sub_one_lt_floor (a * (1000000 - (f : ℚ)) / 1000000)
  · have : (1000 : ℚ) * (PPM_RESOLUTION : ℚ) / ((PPM_RESOLUTION : ℚ) - ((2000 : ℕ) : ℚ)) =
        500000 / 499 := by norm_num [PPM_RESOLUTION]
    rw [addFee, this, Int.ceil_eq_iff]
    norm_num

/-- Witness for `addFee_subtractFee_rounding` at `amount = 1000`,
`feePPM = 2000`. -/
theorem addFee_subtractFee_rounding_witness :
    ((0 : ℚ) ≤ 1000 ∧ 2000 < 1000000) ∧
    (((1000 : ℚ) * 1000000 / (1000000 - ((2000 : ℕ) : ℚ)) ≤ (addFee 1000 2000 : ℚ) ∧
      ((addFee 1000 2000 : ℚ)) < (1000 : ℚ) * 1000000 / (1000000 - ((2000 : ℕ) : ℚ)) + 1) ∧
    ((subtractFee 1000 2000 : ℚ) ≤ (1000 : ℚ) * (1000000 - ((2000 : ℕ) : ℚ)) / 1000000 ∧
      (1000 : ℚ) * (1000000 - ((2000 : ℕ) : ℚ)) / 1000000 - 1 < (subtractFee 1000 2000 : ℚ)) ∧
    addFee 1000 2000 = 1003) :=
  ⟨⟨by norm_num, by norm_num⟩,
    addFee_subtractFee_rounding 1000 2000 (by norm_num) (by norm_num)⟩

/-- C8: for every non-negative integer amount and fee below the PPM
resolution, `subtractFee (addFee x f) f ≥ x` and
`addFee (subtractFee x f) f ≤ x`: the composed roundings are biased toward
the protocol and never against it. -/
theorem fee_composition_bias (x f : ℕ) (hf : f < 1000000) :
    (x : ℤ) ≤ subtractFee ((addFee (x : ℚ) f : ℤ) : ℚ) f ∧
      addFee ((subtractFee (x : ℚ) f : ℤ) : ℚ) f ≤ (x : ℤ) := by
  have hppm : ((PPM_RESOLUTION : ℕ) : ℚ) = 1000000 := by norm_num [PPM_RESOLUTION]
  have hfq : (f : ℚ) < 1000000 := by exact_mod_cast hf
  have hc : (0 : ℚ) < 1000000 - (f : ℚ) := by linarith
  have hP : (0 : ℚ) < 1000000 := by norm_num
  constructor
  · rw [subtractFee, hppm, Int.le_floor]
    have h1 : (x : ℚ) * 1000000 / (1000000 - (f : ℚ)) ≤ (addFee (x : ℚ) f : ℚ) := by
      simpa [addFee, hppm] using Int.le_ceil ((x : ℚ) * 1000000 / (1000000 - (f : ℚ)))
    have h2 : ((x : ℚ) * 1000000 / (1000000 - (f : ℚ))) * (1000000 - (f : ℚ)) / 1000000 ≤
        (addFee (x : ℚ) f : ℚ) * (1000000 - (f : ℚ)) / 1000000 :=
      (div_le_div_iff_of_pos_right hP).mpr (mul_le_mul_of_nonneg_right h1 hc.le)
    have h3 : ((x : ℚ) * 1000000 / (1000000 - (f : ℚ))) * (1000000 - (f : ℚ)) / 1000000 =
        (x : ℚ) := by field_simp
    push_cast
    linarith
  · rw [addFee, hppm, Int.ceil_le]
    have h1 : (subtractFee (x : ℚ) f : ℚ) ≤ (x : ℚ) * (1000000 - (f : ℚ)) / 1000000 := by
      simpa [subtractFee, hppm] using Int.floor_le ((x : ℚ) * (1000000 - (f : ℚ)) / 1000000)
    have h2 : (subtractFee (x : ℚ) f : ℚ) * 1000000 / (1000000 - (f : ℚ)) ≤
        ((x : ℚ) * (1000000 - (f : ℚ)) / 1000000) * 1000000 / (1000000 - (f : ℚ)) :=
      (div_le_div_iff_of_pos_right hc).mpr (mul_le_mul_of_nonneg_right h1 hP.le)
    have h3 : ((x : ℚ) * (1000000 - (f : ℚ)) / 1000000) * 1000000 / (1000000 - (f : ℚ)) =
        (x : ℚ) := by field_simp
    push_cast
    linarith

/-- Witness for `fee_composition_bias` at `x = 1000`, `f = 2000`. -/
theorem fee_composition_bias_witness :
    2000 < 1000000 ∧
    (((1000 : ℕ) : ℤ) ≤ subtractFee ((addFee ((1000 : ℕ) : ℚ) 2000 : ℤ) : ℚ) 2000 ∧
      addFee ((subtractFee ((1000 : ℕ) : ℚ) 2000 : ℤ) : ℚ) 2000 ≤ ((1000 : ℕ) : ℤ)) :=
  ⟨by norm_num, fee_composition_bias 1000 2000 (by norm_num)⟩

/-- C9: `normalizeRate x d0 d1 = x * 10 ^ (d0 - d1)`; for nonzero `x`,
`normalizeInvertedRate x d0 d1 = normalizeRate (1 / x) d1 d0
= (1 / x) * 10 ^ (d1 - d0)`; and `normalizeInvertedRate 0 d0 d1 = 0`
exactly, for all decimal counts. -/
theorem normalizeRate_formula (x : ℚ) (d0 d1 : ℕ) :
    normalizeRate x d0 d1 = x * (10 : ℚ) ^ ((d0 : ℤ) - (d1 : ℤ)) ∧
    (x ≠ 0 → normalizeInvertedRate x d0 d1 = normalizeRate (1 / x) d1 d0 ∧
      normalizeInvertedRate x d0 d1 = 1 / x * (10 : ℚ) ^ ((d1 : ℤ) - (d0 : ℤ))) ∧
    normalizeInvertedRate 0 d0 d1 = 0 := by
  have hten : ∀ a b : ℕ, tenPow a b = (10 : ℚ) ^ ((a : ℤ) - (b : ℤ)) := by
    intro a b
    rw [tenPow, zpow_sub₀ (by norm_num : (10 : ℚ) ≠ 0), zpow_natCast, zpow_natCast]
  refine ⟨by rw [normalizeRate, hten], fun hx => ⟨?_, ?_⟩, by rw [normalizeInvertedRate]; simp⟩
  · rw [normalizeInvertedRate, if_neg hx, normalizeRate]
  · rw [normalizeInvertedRate, if_neg hx, hten]

/-- Witness for `normalizeRate_formula` at `x = 3`, `d0 = 6`, `d1 = 18`. -/
theorem normalizeRate_formula_witness :
    (3 : ℚ) ≠ 0 ∧
    (normalizeRate 3 6 18 = 3 * (10 : ℚ) ^ ((6 : ℤ) - (18 : ℤ)) ∧
    ((3 : ℚ) ≠ 0 → normalizeInvertedRate 3 6 18 = normalizeRate (1 / 3) 18 6 ∧
      normalizeInvertedRate 3 6 18 = 1 / 3 * (10 : ℚ) ^ ((18 : ℤ) - (6 : ℤ))) ∧
    normalizeInvertedRate 0 6 18 = 0) :=
  ⟨by norm_num, normalizeRate_formula 3 6 18⟩

/-- C10: `createOrders` computes the two orders independently per side:
`order1` depends only on the buy-side arguments and the decimals, and
`order0` depends only on the sell-side arguments and the decimals. -/
theorem createOrders_side_independence (bd qd : ℕ)
    (bpl bpm bph bb spl spm sph sb spl' spm' sph' sb' bpl' bpm' bph' bb' : ℚ) :
    (createOrders bd qd bpl bpm bph bb spl spm sph sb).order1 =
      (createOrders bd qd bpl bpm bph bb spl' spm' sph' sb').order1 ∧
    (createOrders bd qd bpl bpm bph bb spl spm sph sb).order0 =
      (createOrders bd qd bpl' bpm' bph' bb' spl spm sph sb).order0 :=
  ⟨rfl, rfl⟩

/-- C2 (amended): `buildStrategyObject` fails with the invalid-price error iff
some price is negative; fails with the invalid-ordering error iff no price is
negative and, on some side, `low > marginal`, `low > high` or
`marginal > high`; fails with the invalid-budget error iff no earlier check
fires and some budget is negative (the three checks run in exactly that
order); succeeds iff no check fires; and, when it succeeds and additionally
`0 < sellPriceLow` or `sellPriceHigh = 0`, both returned orders satisfy
`lowestRate ≤ marginalRate ≤ highestRate`.  (Without that extra condition the
ordering can fail: a zero sell price is special-cased to a zero rate by
`normalizeInvertedRate` while the other sell prices invert to positive
rates.) -/
theorem buildStrategyObject_validation (bt qt : String) (bd qd : ℕ)
    (bpl bpm bph bb spl spm sph sb : ℚ) :
    (buildStrategyObject bt qt bd qd bpl bpm bph bb spl spm sph sb =
        .error StrategyError.invalidPrice ↔
      (bpl < 0 ∨ bpm < 0 ∨ bph < 0 ∨ spl < 0 ∨ spm < 0 ∨ sph < 0)) ∧
    (buildStrategyObject bt qt bd qd bpl bpm bph bb spl spm sph sb =
        .error StrategyError.invalidPriceOrdering ↔
      (¬(bpl < 0 ∨ bpm < 0 ∨ bph < 0 ∨ spl < 0 ∨ spm < 0 ∨ sph < 0) ∧
        (bpl > bpm ∨ bpl > bph ∨ bpm > bph ∨ spl > spm ∨ spl > sph ∨ spm > sph))) ∧
    (buildStrategyObject bt qt bd qd bpl bpm bph bb spl spm sph sb =
        .error StrategyError.invalidBudget ↔
      (¬(bpl < 0 ∨ bpm < 0 ∨ bph < 0 ∨ spl < 0 ∨ spm < 0 ∨ sph < 0) ∧
        ¬(bpl > bpm ∨ bpl > bph ∨ bpm > bph ∨ spl > spm ∨ spl > sph ∨ spm > sph) ∧
        (bb < 0 ∨ sb < 0))) ∧
    ((buildStrategyObject bt qt bd qd bpl bpm bph bb spl spm sph sb).isOk = true ↔
      (¬(bpl < 0 ∨ bpm < 0 ∨ bph < 0 ∨ spl < 0 ∨ spm < 0 ∨ sph < 0) ∧
        ¬(bpl > bpm ∨ bpl > bph ∨ bpm > bph ∨ spl > spm ∨ spl > sph ∨ spm > sph) ∧
        ¬(bb < 0 ∨ sb < 0))) ∧
    ((¬(bpl < 0 ∨ bpm < 0 ∨ bph < 0 ∨ spl < 0 ∨ spm < 0 ∨ sph < 0) ∧
        ¬(bpl > bpm ∨ bpl > bph ∨ bpm > bph ∨ spl > spm ∨ spl > sph ∨ spm > sph) ∧
        ¬(bb < 0 ∨ sb < 0)) → (0 < spl ∨ sph = 0) →
      Except.map ordersOrderedB
        (buildStrategyObject bt qt bd qd bpl bpm bph bb spl spm sph sb) = .ok true) := by
  unfold buildStrategyObject
  split_ifs with h1 h2 h3
  · refine ⟨by simp [h1], by simp [h1], by simp [h1],
      by simp [h1, Except.isOk, Except.toBool], fun hv _ => absurd h1 hv.1⟩
  · refine ⟨by simp [h1, h2], by simp [h1, h2], by simp [h1, h2],
      by simp [h1, h2, Except.isOk, Except.toBool], fun hv _ => absurd h2 hv.2.1⟩
  · refine ⟨by simp [h1, h2, h3], by simp [h1, h2, h3], by simp [h1, h2, h3],
      by simp [h1, h2, h3, Except.isOk, Except.toBool], fun hv _ => absurd h3 hv.2.2⟩
  · refine ⟨by simp [h1], by simp [h1, h2], by simp [h1, h2, h3],
      by simp [h1, h2, h3, Except.isOk, Except.toBool], fun _ hpos => ?_⟩
    rw [not_or] at h3
    rw [not_or, not_or, not_or, not_or, not_or, not_lt, not_lt, not_lt, not_lt,
      not_lt, not_lt] at h1
    rw [not_or, not_or, not_or, not_or, not_or, not_lt, not_lt, not_lt, not_lt,
      not_lt, not_lt] at h2
    obtain ⟨hbpl0, hbpm0, hbph0, hspl0, hspm0, hsph0⟩ := h1
    obtain ⟨hbo1, hbo2, hbo3, hso1, hso2, hso3⟩ := h2
    have hT : 0 ≤ tenPow qd bd := (tenPow_pos qd bd).le
    have hTb : 0 ≤ tenPow bd qd := (tenPow_pos bd qd).le
    simp only [Except.map, ordersOrderedB, rateOrderedB, createOrders,
      Bool.and_eq_true, decide_eq_true_eq, Except.ok.injEq]
    refine ⟨⟨?_, ?_⟩, ?_, ?_⟩
    · -- order0 : lowestRate ≤ marginalRate
      rcases hpos with hsplpos | hsphzero
      · have hspmpos : 0 < spm := lt_of_lt_of_le hsplpos hso1
        have hsphpos : 0 < sph := lt_of_lt_of_le hspmpos hso3
        rw [normalizeInvertedRate, if_neg hsphpos.ne', normalizeInvertedRate,
          if_neg hspmpos.ne']
        exact mul_le_mul_of_nonneg_right
          (one_div_le_one_div_of_le hspmpos hso3) hTb
      · have hspl0' : spl = 0 := le_antisymm (hsphzero ▸ hso2) hspl0
        have hspm0' : spm = 0 := le_antisymm (hsphzero ▸ hso3) hspm0
        rw [hsphzero, hspm0', normalizeInvertedRate, if_pos rfl]
    · -- order0 : marginalRate ≤ highestRate
      rcases hpos with hsplpos | hsphzero
      · have hspmpos : 0 < spm := lt_of_lt_of_le hsplpos hso1
        rw [normalizeInvertedRate, if_neg hspmpos.ne', normalizeInvertedRate,
          if_neg hsplpos.ne']
        exact mul_le_mul_of_nonneg_right
          (one_div_le_one_div_of_le hsplpos hso1) hTb
      · have hspl0' : spl = 0 := le_antisymm (hsphzero ▸ hso2) hspl0
        have hspm0' : spm = 0 := le_antisymm (hsphzero ▸ hso3) hspm0
        rw [hspl0', hspm0', normalizeInvertedRate, if_pos rfl]
    · -- order1 : lowestRate ≤ marginalRate
      exact mul_le_mul_of_nonneg_right hbo1 hT
    · -- order1 : marginalRate ≤ highestRate
      exact mul_le_mul_of_nonneg_right hbo3 hT

/-- Witness for `buildStrategyObject_validation`: a concrete fully valid
input with positive sell prices, whose built orders are rate-ordered. -/
theorem buildStrategyObject_validation_witness :
    ((¬((1 : ℚ) < 0 ∨ (2 : ℚ) < 0 ∨ (3 : ℚ) < 0 ∨ (1 : ℚ) < 0 ∨ (2 : ℚ) < 0 ∨ (3 : ℚ) < 0) ∧
      ¬((1 : ℚ) > 2 ∨ (1 : ℚ) > 3 ∨ (2 : ℚ) > 3 ∨ (1 : ℚ) > 2 ∨ (1 : ℚ) > 3 ∨ (2 : ℚ) > 3) ∧
      ¬((5 : ℚ) < 0 ∨ (7 : ℚ) < 0)) ∧ ((0 : ℚ) < 1 ∨ (3 : ℚ) = 0)) ∧
    Except.map ordersOrderedB
      (buildStrategyObject "base" "quote" 18 6 1 2 3 5 1 2 3 7) = .ok true :=
  ⟨⟨by norm_num, by norm_num⟩,
    (buildStrategyObject_validation "base" "quote" 18 6 1 2 3 5 1 2 3 7).2.2.2.2
      (by norm_num) (by norm_num)⟩

/-- Counterexample to C2 as stated: with `sellPriceLow = 0`,
`sellPriceMarginal = sellPriceHigh = 1` (and everything else valid), all
three checks pass and `buildStrategyObject` succeeds, yet the returned
`order0` has `marginalRate > highestRate`, because the zero sell price is
special-cased to a zero rate while the positive marginal price inverts to a
positive rate. -/
theorem buildStrategyObject_zero_sell_price_counterexample :
    Except.map ordersOrderedB
      (buildStrategyObject "base" "quote" 0 0 1 1 1 0 0 1 1 0) = .ok false := by
  norm_num [buildStrategyObject, createOrders, ordersOrderedB, rateOrderedB,
    normalizeRate, normalizeInvertedRate, tenPow, parseUnits, ratTrunc, Except.map]

/-- C3 (amended): with an identity codec and a decimals resolver returning the
build-time decimals, `parseStrategy` applied to the strategy built by
`buildStrategyObject` from strictly positive ordered prices and non-negative
budgets reproduces all six prices exactly, and reproduces the two budgets
exactly provided each budget is representable in its token's decimals (an
integer number of base units); a budget with more fractional digits than the
token's decimals is truncated at the base-unit conversion and comes back
short. -/
theorem parseStrategy_round_trip (bt qt : String) (bd qd : ℕ)
    (bpl bpm bph bb spl spm sph sb : ℚ)
    (hbpl : 0 < bpl) (hbpm : 0 < bpm) (hbph : 0 < bph)
    (hspl : 0 < spl) (hspm : 0 < spm) (hsph : 0 < sph)
    (hb1 : bpl ≤ bpm) (hb2 : bpm ≤ bph) (hs1 : spl ≤ spm) (hs2 : spm ≤ sph)
    (hbb : 0 ≤ bb) (hsb : 0 ≤ sb)
    (hbbrep : ∃ n : ℤ, bb * (10 : ℚ) ^ qd = (n : ℚ))
    (hsbrep : ∃ n : ℤ, sb * (10 : ℚ) ^ bd = (n : ℚ)) :
    Except.map (fun st => parseStrategy st bd qd)
      (buildStrategyObject bt qt bd qd bpl bpm bph bb spl spm sph sb) =
    .ok { baseToken := bt, quoteToken := qt,
          buyPriceLow := bpl, buyPriceMarginal := bpm, buyPriceHigh := bph,
          buyBudget := bb, sellPriceLow := spl, sellPriceMarginal := spm,
          sellPriceHigh := sph, sellBudget := sb } := by
  have h1 : ¬(bpl < 0 ∨ bpm < 0 ∨ bph < 0 ∨ spl < 0 ∨ spm < 0 ∨ sph < 0) := by
    push_neg
    exact ⟨hbpl.le, hbpm.le, hbph.le, hspl.le, hspm.le, hsph.le⟩
  have h2 : ¬(bpl > bpm ∨ bpl > bph ∨ bpm > bph ∨ spl > spm ∨ spl > sph ∨
      spm > sph) := by
    push_neg
    exact ⟨hb1, hb1.trans hb2, hb2, hs1, hs1.trans hs2, hs2⟩
  have h3 : ¬(bb < 0 ∨ sb < 0) := by
    push_neg
    exact ⟨hbb, hsb⟩
  have hnr : ∀ x : ℚ, normalizeRate (normalizeRate x qd bd) bd qd = x := by
    intro x
    rw [normalizeRate, normalizeRate, mul_assoc, tenPow_mul_tenPow, mul_one]
  have hni : ∀ x : ℚ, 0 < x →
      normalizeInvertedRate (normalizeInvertedRate x qd bd) qd bd = x := by
    intro x hx
    have hinner_eq : normalizeInvertedRate x qd bd = 1 / x * tenPow bd qd := by
      rw [normalizeInvertedRate, if_neg hx.ne']
    have hinner : normalizeInvertedRate x qd bd ≠ 0 := by
      rw [hinner_eq]
      exact mul_ne_zero (one_div_ne_zero hx.ne') (tenPow_ne_zero bd qd)
    rw [normalizeInvertedRate, if_neg hinner, hinner_eq]
    have h10b : (10 : ℚ) ^ bd ≠ 0 := pow_ne_zero bd (by norm_num)
    have h10q : (10 : ℚ) ^ qd ≠ 0 := pow_ne_zero qd (by norm_num)
    rw [tenPow]
    field_simp
  have hfmt : ∀ (x : ℚ) (d : ℕ), (∃ n : ℤ, x * (10 : ℚ) ^ d = (n : ℚ)) →
      formatUnits (parseUnits x d) d = x := by
    intro x d hx
    obtain ⟨n, hn⟩ := hx
    have h10 : (10 : ℚ) ^ d ≠ 0 := pow_ne_zero d (by norm_num)
    rw [formatUnits, parseUnits, hn, ratTrunc_intCast, ← hn,
      mul_div_assoc, div_self h10, mul_one]
  rw [buildStrategyObject]
  rw [if_neg h1, if_neg h2, if_neg h3]
  simp only [Except.map, createOrders, parseStrategy, Except.ok.injEq,
    Strategy.mk.injEq]
  exact ⟨trivial, trivial, hnr bpl, hnr bpm, hnr bph, hfmt bb qd hbbrep,
    hni spl hspl, hni spm hspm, hni sph hsph, hfmt sb bd hsbrep⟩

/-- Witness for `parseStrategy_round_trip` at a concrete valid,
representable input. -/
theorem parseStrategy_round_trip_witness :
    ((0 : ℚ) < 1 ∧ (0 : ℚ) < 2 ∧ (0 : ℚ) < 3 ∧ (1 : ℚ) ≤ 2 ∧ (2 : ℚ) ≤ 3 ∧
      (0 : ℚ) ≤ 1 ∧ (∃ n : ℤ, (1 : ℚ) * (10 : ℚ) ^ (0 : ℕ) = (n : ℚ))) ∧
    Except.map (fun st => parseStrategy st 0 0)
      (buildStrategyObject "base" "quote" 0 0 1 2 3 1 1 2 3 1) =
    .ok { baseToken := "base", quoteToken := "quote",
          buyPriceLow := 1, buyPriceMarginal := 2, buyPriceHigh := 3,
          buyBudget := 1, sellPriceLow := 1, sellPriceMarginal := 2,
          sellPriceHigh := 3, sellBudget := 1 } :=
  ⟨⟨by norm_num, by norm_num, by norm_num, by norm_num, by norm_num,
      by norm_num, ⟨1, by norm_num⟩⟩,
    parseStrategy_round_trip "base" "quote" 0 0 1 2 3 1 1 2 3 1
      (by norm_num) (by norm_num) (by norm_num) (by norm_num) (by norm_num)
      (by norm_num) (by norm_num) (by norm_num) (by norm_num) (by norm_num)
      (by norm_num) (by norm_num) ⟨1, by norm_num⟩ ⟨1, by norm_num⟩⟩

/-- Counterexample to C3 as stated: a valid input (strictly positive ordered
prices, non-negative budgets) whose buy budget `1/2` is not representable in
the quote token's `0` decimals; the round trip returns buy budget `0`, not
`1/2`, so the original human value is not reproduced. -/
theorem parseStrategy_budget_trim_counterexample :
    Except.map (fun st => decide ((parseStrategy st 0 0).buyBudget = 1 / 2))
      (buildStrategyObject "base" "quote" 0 0 1 1 1 (1 / 2) 2 2 2 0) =
      .ok false := by
  norm_num [buildStrategyObject, createOrders, parseStrategy, formatUnits,
    parseUnits, ratTrunc, Except.map]

theorem ov_buyPriceHigh (b s m p B : ℚ) :
    (overlappingDistributionValues b s m p B).buyPriceHigh =
      s - (s - b) * p / 100 := rfl

theorem ov_sellPriceLow (b s m p B : ℚ) :
    (overlappingDistributionValues b s m p B).sellPriceLow =
      b + (s - b) * p / 100 := rfl

theorem ov_buyPriceMarginal (b s m p B : ℚ) :
    (overlappingDistributionValues b s m p B).buyPriceMarginal =
      b + (s - (s - b) * p / 100 - b) *
        ((m - b - (s - b) * p / 100 / 2) / (s - (s - b) * p / 100 - b)) := rfl

theorem ov_sellPriceMarginal (b s m p B : ℚ) :
    (overlappingDistributionValues b s m p B).sellPriceMarginal =
      s - (s - (b + (s - b) * p / 100)) *
        (1 - (m - b - (s - b) * p / 100 / 2) / (s - (s - b) * p / 100 - b)) := rfl

theorem ov_sellBudget (b s m p B : ℚ) :
    (overlappingDistributionValues b s m p B).sellBudget =
      B / ((m - b - (s - b) * p / 100 / 2) / (s - (s - b) * p / 100 - b)) /
        decSqrt (b * s) *
        (1 - (m - b - (s - b) * p / 100 / 2) / (s - (s - b) * p / 100 - b)) := rfl

/-- C5 (amended): for valid non-degenerate inputs with `0 < buyPriceLow <
sellPriceHigh`, `spreadPercentage ∈ [0, 100)`, `buyBudget ≥ 0`, and a market
price strictly inside the half-spread-corrected range
(`buyPriceLow + spread/2 < marketPrice ≤ sellPriceHigh - spread/2`, so the
budget ratio of step 5 lies in `(0, 1]`), the untrimmed solver values satisfy
the full chains `buyPriceLow ≤ sellPriceLow ≤ sellPriceMarginal ≤
sellPriceHigh` and `buyPriceLow ≤ buyPriceMarginal ≤ buyPriceHigh ≤
sellPriceHigh` with `sellBudget ≥ 0`, and the returned (trimmed) values keep
every comparison except the two lower bounds against the untrimmed input
`buyPriceLow`, which truncation can undercut by less than one unit of the
last kept decimal place.  (As stated — on the returned values, for every
market price inside the outer bounds — the claim fails; see the
counterexample.) -/
theorem overlapping_invariants (bd qd : ℕ) (b s m p B : ℚ)
    (hb : 0 < b) (hbs : b < s) (hp0 : 0 ≤ p) (hp1 : p < 100) (hB : 0 ≤ B)
    (hm1 : b + (s - b) * p / 100 / 2 < m)
    (hm2 : m ≤ s - (s - b) * p / 100 / 2) :
    (b ≤ (overlappingDistributionValues b s m p B).sellPriceLow ∧
      (overlappingDistributionValues b s m p B).sellPriceLow ≤
        (overlappingDistributionValues b s m p B).sellPriceMarginal ∧
      (overlappingDistributionValues b s m p B).sellPriceMarginal ≤ s ∧
      b ≤ (overlappingDistributionValues b s m p B).buyPriceMarginal ∧
      (overlappingDistributionValues b s m p B).buyPriceMarginal ≤
        (overlappingDistributionValues b s m p B).buyPriceHigh ∧
      (overlappingDistributionValues b s m p B).buyPriceHigh ≤ s ∧
      0 ≤ (overlappingDistributionValues b s m p B).sellBudget) ∧
    Except.map (overlappingOrderedB s)
      (calculateOverlappingDistribution bd qd b s m p B) = .ok true := by
  have hsb0 : 0 < s - b := by linarith
  have hsp0 : 0 ≤ (s - b) * p / 100 :=
    div_nonneg (mul_nonneg hsb0.le hp0) (by norm_num)
  have hsplt : (s - b) * p / 100 < s - b := by
    rw [div_lt_iff₀ (by norm_num : (0 : ℚ) < 100)]
    exact mul_lt_mul_of_pos_left hp1 hsb0
  have hD : 0 < s - (s - b) * p / 100 - b := by linarith
  have hN : 0 < m - b - (s - b) * p / 100 / 2 := by linarith
  have hr0 : 0 < (m - b - (s - b) * p / 100 / 2) / (s - (s - b) * p / 100 - b) :=
    div_pos hN hD
  have hr1 : (m - b - (s - b) * p / 100 / 2) / (s - (s - b) * p / 100 - b) ≤ 1 :=
    (div_le_one hD).mpr (by linarith)
  have hDr0 : 0 ≤ (s - (s - b) * p / 100 - b) *
      ((m - b - (s - b) * p / 100 / 2) / (s - (s - b) * p / 100 - b)) :=
    mul_nonneg hD.le hr0.le
  have hDr1 : (s - (s - b) * p / 100 - b) *
      ((m - b - (s - b) * p / 100 / 2) / (s - (s - b) * p / 100 - b)) ≤
      (s - (s - b) * p / 100 - b) * 1 :=
    mul_le_mul_of_nonneg_left hr1 hD.le
  have hE : s - (b + (s - b) * p / 100) = s - (s - b) * p / 100 - b := by ring
  have hE0 : 0 ≤ s - (b + (s - b) * p / 100) := by rw [hE]; exact hD.le
  have hEr0 : 0 ≤ (s - (b + (s - b) * p / 100)) *
      (1 - (m - b - (s - b) * p / 100 / 2) / (s - (s - b) * p / 100 - b)) :=
    mul_nonneg hE0 (by linarith)
  have hEr1 : (s - (b + (s - b) * p / 100)) *
      (1 - (m - b - (s - b) * p / 100 / 2) / (s - (s - b) * p / 100 - b)) ≤
      (s - (b + (s - b) * p / 100)) * 1 :=
    mul_le_mul_of_nonneg_left (by linarith) hE0
  have hsbud : 0 ≤ (overlappingDistributionValues b s m p B).sellBudget := by
    rw [ov_sellBudget]
    exact mul_nonneg (div_nonneg (div_nonneg hB hr0.le) (decSqrt_nonneg _))
      (by linarith)
  have huspl : b ≤ (overlappingDistributionValues b s m p B).sellPriceLow := by
    rw [ov_sellPriceLow]; linarith
  have huspm1 : (overlappingDistributionValues b s m p B).sellPriceLow ≤
      (overlappingDistributionValues b s m p B).sellPriceMarginal := by
    rw [ov_sellPriceLow, ov_sellPriceMarginal]
    nlinarith [hEr1, hE]
  have huspm2 : (overlappingDistributionValues b s m p B).sellPriceMarginal ≤ s := by
    rw [ov_sellPriceMarginal]; linarith
  have hubpm1 : b ≤ (overlappingDistributionValues b s m p B).buyPriceMarginal := by
    rw [ov_buyPriceMarginal]; linarith
  have hubpm2 : (overlappingDistributionValues b s m p B).buyPriceMarginal ≤
      (overlappingDistributionValues b s m p B).buyPriceHigh := by
    rw [ov_buyPriceMarginal, ov_buyPriceHigh]; linarith
  have hubph : (overlappingDistributionValues b s m p B).buyPriceHigh ≤ s := by
    rw [ov_buyPriceHigh]; linarith
  refine ⟨⟨huspl, huspm1, huspm2, hubpm1, hubpm2, hubph, hsbud⟩, ?_⟩
  have hspl_nonneg : 0 ≤ (overlappingDistributionValues b s m p B).sellPriceLow :=
    le_trans hb.le huspl
  have hspm_nonneg : 0 ≤ (overlappingDistributionValues b s m p B).sellPriceMarginal :=
    le_trans hspl_nonneg huspm1
  have hbpm_nonneg : 0 ≤ (overlappingDistributionValues b s m p B).buyPriceMarginal :=
    le_trans hb.le hubpm1
  have hbph_nonneg : 0 ≤ (overlappingDistributionValues b s m p B).buyPriceHigh :=
    le_trans hbpm_nonneg hubpm2
  show Except.map (overlappingOrderedB s)
      (.ok {
        buyPriceHigh := trimDecimal
          (overlappingDistributionValues b s m p B).buyPriceHigh qd,
        buyPriceMarginal := trimDecimal
          (overlappingDistributionValues b s m p B).buyPriceMarginal qd,
        sellPriceLow := trimDecimal
          (overlappingDistributionValues b s m p B).sellPriceLow qd,
        sellPriceMarginal := trimDecimal
          (overlappingDistributionValues b s m p B).sellPriceMarginal qd,
        sellBudget := trimDecimal
          (overlappingDistributionValues b s m p B).sellBudget bd }) = .ok true
  simp only [Except.map, overlappingOrderedB, Bool.and_eq_true,
    decide_eq_true_eq, Except.ok.injEq]
  refine ⟨⟨⟨⟨?_, ?_⟩, ?_⟩, ?_⟩, ?_⟩
  · exact trimDecimal_mono qd huspm1
  · exact le_trans (trimDecimal_le qd hspm_nonneg) huspm2
  · exact trimDecimal_mono qd hubpm2
  · exact le_trans (trimDecimal_le qd hbph_nonneg) hubph
  · exact trimDecimal_nonneg bd hsbud

/-- Witness for `overlapping_invariants` at a concrete valid input. -/
theorem overlapping_invariants_witness :
    ((0 : ℚ) < 1 ∧ (1 : ℚ) < 2 ∧ (0 : ℚ) ≤ 0 ∧ (0 : ℚ) < 100 ∧ (0 : ℚ) ≤ 1 ∧
      (1 : ℚ) + (2 - 1) * 0 / 100 / 2 < 3 / 2 ∧
      (3 : ℚ) / 2 ≤ 2 - (2 - 1) * 0 / 100 / 2) ∧
    ((1 ≤ (overlappingDistributionValues 1 2 (3 / 2) 0 1).sellPriceLow ∧
      (overlappingDistributionValues 1 2 (3 / 2) 0 1).sellPriceLow ≤
        (overlappingDistributionValues 1 2 (3 / 2) 0 1).sellPriceMarginal ∧
      (overlappingDistributionValues 1 2 (3 / 2) 0 1).sellPriceMarginal ≤ 2 ∧
      1 ≤ (overlappingDistributionValues 1 2 (3 / 2) 0 1).buyPriceMarginal ∧
      (overlappingDistributionValues 1 2 (3 / 2) 0 1).buyPriceMarginal ≤
        (overlappingDistributionValues 1 2 (3 / 2) 0 1).buyPriceHigh ∧
      (overlappingDistributionValues 1 2 (3 / 2) 0 1).buyPriceHigh ≤ 2 ∧
      0 ≤ (overlappingDistributionValues 1 2 (3 / 2) 0 1).sellBudget) ∧
    Except.map (overlappingOrderedB 2)
      (calculateOverlappingDistribution 18 6 1 2 (3 / 2) 0 1) = .ok true) :=
  ⟨⟨by norm_num, by norm_num, by norm_num, by norm_num, by norm_num,
      by norm_num, by norm_num⟩,
    overlapping_invariants 18 6 1 2 (3 / 2) 0 1 (by norm_num) (by norm_num)
      (by norm_num) (by norm_num) (by norm_num) (by norm_num) (by norm_num)⟩

/-- Counterexample to C5 as stated: at `buyPriceLow = 1`, `sellPriceHigh = 2`,
`marketPrice = 1` (within the outer bounds), `spreadPercentage = 50`,
`buyBudget = 1000`, the budget ratio of step 5 is negative and the returned
values violate `sellPriceLow ≤ sellPriceMarginal` (the returned
`sellPriceLow` is `1.5` and the returned `sellPriceMarginal` is `1.25`). -/
theorem overlapping_market_at_floor_counterexample :
    Except.map (fun r => decide (r.sellPriceLow ≤ r.sellPriceMarginal))
      (calculateOverlappingDistribution 18 18 1 2 1 50 1000) = .ok false := by
  norm_num [calculateOverlappingDistribution, overlappingDistributionValues,
    trimDecimal, ratTrunc, Except.map]

/-- C6: `createOrders` builds `order0` from the sell side only — liquidity is
the sell budget scaled to base-token base units, `lowestRate` is the
inverted-normalized `sellPriceHigh`, `marginalRate` the inverted-normalized
`sellPriceMarginal`, `highestRate` the inverted-normalized `sellPriceLow` —
and `order1` from the buy side only — liquidity is the buy budget scaled to
quote-token base units and the three rates are the directly normalized
`buyPriceLow` / `buyPriceMarginal` / `buyPriceHigh`.  At the spec's example
(`baseDecimals = 18`, `quoteDecimals = 6`, `buyBudget = 1000`,
`sellBudget = 0.5`), `order1.liquidity = 1000000000` and
`order0.liquidity = 500000000000000000`. -/
theorem createOrders_field_mapping (bd qd : ℕ)
    (bpl bpm bph bb spl spm sph sb : ℚ)
    (hspl : 0 < spl) (hspm : 0 < spm) (hsph : 0 < sph) :
    ((createOrders bd qd bpl bpm bph bb spl spm sph sb).order0.liquidity =
        ratTrunc (sb * (10 : ℚ) ^ bd) ∧
      (createOrders bd qd bpl bpm bph bb spl spm sph sb).order0.lowestRate =
        1 / sph * ((10 : ℚ) ^ bd / (10 : ℚ) ^ qd) ∧
      (createOrders bd qd bpl bpm bph bb spl spm sph sb).order0.marginalRate =
        1 / spm * ((10 : ℚ) ^ bd / (10 : ℚ) ^ qd) ∧
      (createOrders bd qd bpl bpm bph bb spl spm sph sb).order0.highestRate =
        1 / spl * ((10 : ℚ) ^ bd / (10 : ℚ) ^ qd)) ∧
    ((createOrders bd qd bpl bpm bph bb spl spm sph sb).order1.liquidity =
        ratTrunc (bb * (10 : ℚ) ^ qd) ∧
      (createOrders bd qd bpl bpm bph bb spl spm sph sb).order1.lowestRate =
        bpl * ((10 : ℚ) ^ qd / (10 : ℚ) ^ bd) ∧
      (createOrders bd qd bpl bpm bph bb spl spm sph sb).order1.marginalRate =
        bpm * ((10 : ℚ) ^ qd / (10 : ℚ) ^ bd) ∧
      (createOrders bd qd bpl bpm bph bb spl spm sph sb).order1.highestRate =
        bph * ((10 : ℚ) ^ qd / (10 : ℚ) ^ bd)) ∧
    (createOrders 18 6 1800 1900 2000 1000 2000 2100 2200 (1 / 2)).order1.liquidity =
      1000000000 ∧
    (createOrders 18 6 1800 1900 2000 1000 2000 2100 2200 (1 / 2)).order0.liquidity =
      500000000000000000 := by
  refine ⟨⟨rfl, ?_, ?_, ?_⟩, ⟨rfl, rfl, rfl, rfl⟩, ?_, ?_⟩
  · show normalizeInvertedRate sph qd bd = 1 / sph * ((10 : ℚ) ^ bd / (10 : ℚ) ^ qd)
    rw [normalizeInvertedRate, if_neg hsph.ne', tenPow]
  · show normalizeInvertedRate spm qd bd = 1 / spm * ((10 : ℚ) ^ bd / (10 : ℚ) ^ qd)
    rw [normalizeInvertedRate, if_neg hspm.ne', tenPow]
  · show normalizeInvertedRate spl qd bd = 1 / spl * ((10 : ℚ) ^ bd / (10 : ℚ) ^ qd)
    rw [normalizeInvertedRate, if_neg hspl.ne', tenPow]
  · norm_num [createOrders, parseUnits, ratTrunc]
  · norm_num [createOrders, parseUnits, ratTrunc]

/-- Witness for `createOrders_field_mapping` at the spec's example input. -/
theorem createOrders_field_mapping_witness :
    ((0 : ℚ) < 2000 ∧ (0 : ℚ) < 2100 ∧ (0 : ℚ) < 2200) ∧
    (((createOrders 18 6 1800 1900 2000 1000 2000 2100 2200 (1 / 2)).order0.liquidity =
        ratTrunc ((1 / 2 : ℚ) * (10 : ℚ) ^ (18 : ℕ)) ∧
      (createOrders 18 6 1800 1900 2000 1000 2000 2100 2200 (1 / 2)).order0.lowestRate =
        1 / 2200 * ((10 : ℚ) ^ (18 : ℕ) / (10 : ℚ) ^ (6 : ℕ)) ∧
      (createOrders 18 6 1800 1900 2000 1000 2000 2100 2200 (1 / 2)).order0.marginalRate =
        1 / 2100 * ((10 : ℚ) ^ (18 : ℕ) / (10 : ℚ) ^ (6 : ℕ)) ∧
      (createOrders 18 6 1800 1900 2000 1000 2000 2100 2200 (1 / 2)).order0.highestRate =
        1 / 2000 * ((10 : ℚ) ^ (18 : ℕ) / (10 : ℚ) ^ (6 : ℕ))) ∧
    ((createOrders 18 6 1800 1900 2000 1000 2000 2100 2200 (1 / 2)).order1.liquidity =
        ratTrunc ((1000 : ℚ) * (10 : ℚ) ^ (6 : ℕ)) ∧
      (createOrders 18 6 1800 1900 2000 1000 2000 2100 2200 (1 / 2)).order1.lowestRate =
        1800 * ((10 : ℚ) ^ (6 : ℕ) / (10 : ℚ) ^ (18 : ℕ)) ∧
      (createOrders 18 6 1800 1900 2000 1000 2000 2100 2200 (1 / 2)).order1.marginalRate =
        1900 * ((10 : ℚ) ^ (6 : ℕ) / (10 : ℚ) ^ (18 : ℕ)) ∧
      (createOrders 18 6 1800 1900 2000 1000 2000 2100 2200 (1 / 2)).order1.highestRate =
        2000 * ((10 : ℚ) ^ (6 : ℕ) / (10 : ℚ) ^ (18 : ℕ))) ∧
    (createOrders 18 6 1800 1900 2000 1000 2000 2100 2200 (1 / 2)).order1.liquidity =
      1000000000 ∧
    (createOrders 18 6 1800 1900 2000 1000 2000 2100 2200 (1 / 2)).order0.liquidity =
      500000000000000000) :=
  ⟨⟨by norm_num, by norm_num, by norm_num⟩,
    createOrders_field_mapping 18 6 1800 1900 2000 1000 2000 2100 2200 (1 / 2)
      (by norm_num) (by norm_num) (by norm_num)⟩

end Carbon
